import Mathlib

/-!
Shallow embedding of the authenticated-request core of
`src/index.js` (the v2 variant, lines 23-145): the module-level
`sessionToken` cell, `getAuthHeaders`, `authenticate`, and
`makeCaproverRequest`, together with the axios behaviour each relies on.

The upstream CapRover server is modelled as an oracle: a queue of
outcomes for the login endpoint and a queue of outcomes for dispatched
API calls, consumed in order.  Counters record how many login POSTs and
how many dispatch calls were issued, and the authorization header of
every dispatched call is logged, so the testable properties of the spec
(attempt counts, login counts, which token a call carried) are stated
directly over the final state.
-/

namespace Caprover

/-- Outcome of one axios POST to the login endpoint, as performed by
`authenticate` (index.js lines 116-125, default axios validateStatus:
only 2xx resolves).  `ok t` is a 2xx response whose body has a truthy
token at path data.data.token; `noToken` is a 2xx response where that
field is absent or falsy (line 129 test fails); `httpErr s` is a non-2xx
response, which axios turns into an error carrying response status `s`;
`transport` is a network-level failure with no response at all. -/
inductive LoginResult where
  | ok (token : String)
  | noToken
  | httpErr (status : Nat)
  | transport
deriving Repr, DecidableEq

/-- Outcome of one axios call made by `makeCaproverRequest`
(index.js lines 53-61): either an HTTP response with a status and a
body, or a network-level failure with no response. -/
inductive DispatchOutcome where
  | reply (status : Nat) (body : String)
  | transport
deriving Repr, DecidableEq

/-- A thrown JavaScript error as the catch blocks observe it: its
message and the optional `error.response?.status`.  A plain
`new Error(msg)` has `respStatus = none`; an axios rejection for an HTTP
response carries `respStatus = some status`. -/
structure JsError where
  message : String
  respStatus : Option Nat
deriving Repr, DecidableEq

/-- HTTP headers built by `getAuthHeaders` (index.js lines 30-33). -/
structure Headers where
  contentType : String
  authorization : String
deriving Repr, DecidableEq

/-- Program state: the module-level `sessionToken` cell (index.js line
24), the remaining upstream oracle queues, and instrumentation — how
many login POSTs `authenticate` has issued (`loginCalls`), how many
axios calls `makeCaproverRequest` has issued (`dispatchCalls`), and the
Authorization header value each dispatched call carried (`sentAuth`,
in order). -/
structure St where
  sessionToken : Option String
  logins : List LoginResult
  dispatches : List DispatchOutcome
  loginCalls : Nat
  dispatchCalls : Nat
  sentAuth : List String
deriving Repr, DecidableEq

/-- The fixed login endpoint string compared at index.js line 42. -/
def loginEndpoint : String := "/api/v2/login"

/-- getAuthHeaders (index.js lines 26-36): throws a plain Error when no
session token is stored, otherwise returns JSON content type plus the
bearer-style Authorization header. -/
def getAuthHeaders (sessionToken : Option String) : Except JsError Headers :=
  match sessionToken with
  | none =>
      .error ⟨"No session token available. Please authenticate first.", none⟩
  | some t => .ok ⟨"application/json", "Bearer " ++ t⟩

/-- authenticate (index.js lines 113-145): one axios POST to the login
endpoint (default validateStatus, so only 2xx resolves).  On a 2xx body
with a truthy data.data.token the token is stored into `sessionToken`
(line 130); on a 2xx body without it a plain Error is thrown (line 134)
and nothing is stored; a non-2xx response or a network failure is the
axios rejection, logged and rethrown (line 143).  The POST is counted in
`loginCalls` in every case.  An empty oracle queue is read as a network
failure. -/
def authenticate (st : St) : St × Except JsError Unit :=
  let r := st.logins.headD .transport
  let st1 : St := { st with logins := st.logins.tail, loginCalls := st.loginCalls + 1 }
  match r with
  | .ok t => ({ st1 with sessionToken := some t }, .ok ())
  | .noToken =>
      (st1, .error ⟨"No valid token received from authentication", none⟩)
  | .httpErr s =>
      (st1, .error ⟨"Request failed with status code " ++ toString s, some s⟩)
  | .transport => (st1, .error ⟨"Network Error", none⟩)

/-- The axios call of makeCaproverRequest (index.js lines 53-61), with
validateStatus accepting exactly 200 <= status < 500: such a response
resolves to (status, body); any other response is rejected with an error
carrying its status; a network failure is rejected with no response
status.  The call is counted in `dispatchCalls` and the Authorization
header it carried is appended to `sentAuth`.  An empty oracle queue is
read as a network failure. -/
def axiosDispatch (h : Headers) (st : St) : St × Except JsError (Nat × String) :=
  let r := st.dispatches.headD .transport
  let st1 : St := { st with
    dispatches := st.dispatches.tail
    dispatchCalls := st.dispatchCalls + 1
    sentAuth := st.sentAuth ++ [h.authorization] }
  match r with
  | .reply s b =>
      if 200 ≤ s ∧ s < 500 then (st1, .ok (s, b))
      else (st1, .error ⟨"Request failed with status code " ++ toString s, some s⟩)
  | .transport => (st1, .error ⟨"Network Error", none⟩)

/-- Lines 49-73 of index.js, after the conditional pre-authentication:
build headers (throws when the token is still unset), issue the axios
call, and throw a plain Error — no response attached — for any resolved
status >= 400 (line 70); otherwise return the body. -/
def requestAfterAuth (st : St) : St × Except JsError String :=
  match getAuthHeaders st.sessionToken with
  | .error e => (st, .error e)
  | .ok h =>
    match axiosDispatch h st with
    | (st1, .error e) => (st1, .error e)
    | (st1, .ok (status, body)) =>
      if 400 ≤ status then
        (st1, .error ⟨"Request failed with status " ++ toString status ++ ": " ++ body, none⟩)
      else (st1, .ok body)

/-- The try block of makeCaproverRequest (index.js lines 40-73): when no
session token is stored and the endpoint is not the login endpoint,
authenticate first (line 44, its errors propagate), then run the
request body. -/
def requestTryBody (endpoint : String) (st : St) : St × Except JsError String :=
  if st.sessionToken = none ∧ endpoint ≠ loginEndpoint then
    match authenticate st with
    | (st1, .error e) => (st1, .error e)
    | (st1, .ok _) => requestAfterAuth st1
  else requestAfterAuth st

/-- makeCaproverRequest (index.js lines 39-97).  The catch block (lines
74-96) re-authenticates and retries by a recursive self-call exactly
when the caught error carries `error.response?.status === 401`; an error
thrown by that inner `authenticate` propagates (there is no try around
line 78); every other error is logged and rethrown.  The source
recursion is represented by a fuel parameter; the `method` and `data`
arguments are carried through unchanged, as in the source, and do not
influence the oracle-driven outcome. -/
def makeCaproverRequest (fuel : Nat) (endpoint method : String)
    (data : Option String) (st : St) : St × Except JsError String :=
  match fuel with
  | 0 => (st, .error ⟨"fuel exhausted", none⟩)
  | f + 1 =>
    match requestTryBody endpoint st with
    | (st1, .ok body) => (st1, .ok body)
    | (st1, .error e) =>
      if e.respStatus = some 401 then
        match authenticate st1 with
        | (st2, .error e2) => (st2, .error e2)
        | (st2, .ok _) => makeCaproverRequest f endpoint method data st2
      else (st1, .error e)

/-! Helper lemmas about the building blocks. -/

/-- authenticate always issues exactly one login POST. -/
theorem authenticate_loginCalls (st : St) :
    (authenticate st).1.loginCalls = st.loginCalls + 1 := by
  cases hl : st.logins with
  | nil => simp [authenticate, hl]
  | cons r rest => cases r <;> simp [authenticate, hl]

/-- authenticate leaves the oracle queue for dispatches, the dispatch
counter and the sent-header log untouched. -/
theorem authenticate_dispatch_frame (st : St) :
    (authenticate st).1.dispatches = st.dispatches ∧
    (authenticate st).1.dispatchCalls = st.dispatchCalls ∧
    (authenticate st).1.sentAuth = st.sentAuth := by
  cases hl : st.logins with
  | nil => simp [authenticate, hl]
  | cons r rest => cases r <;> simp [authenticate, hl]

/-- authenticate either leaves the stored token unchanged (on any
failure) or replaces it with the token of a successful login. -/
theorem authenticate_token_cases (st : St) :
    (authenticate st).1.sessionToken = st.sessionToken ∨
    ∃ t, st.logins.headD .transport = .ok t ∧
      (authenticate st).1.sessionToken = some t := by
  cases hl : st.logins with
  | nil => simp [authenticate, hl]
  | cons r rest => cases r <;> simp [authenticate, hl]

/-- When authenticate succeeds, the stored token is the one extracted
from the login response. -/
theorem authenticate_ok_token (st : St) (h : (authenticate st).2 = .ok ()) :
    ∃ t, st.logins.headD .transport = .ok t ∧
      (authenticate st).1.sessionToken = some t := by
  cases hl : st.logins with
  | nil => rw [authenticate, hl] at h; simp at h
  | cons r rest =>
    cases r with
    | ok t => exact ⟨t, by simp [hl], by simp [authenticate, hl]⟩
    | noToken => rw [authenticate, hl] at h; simp at h
    | httpErr s => rw [authenticate, hl] at h; simp at h
    | transport => rw [authenticate, hl] at h; simp at h

/-- requestAfterAuth never touches the stored token or the login
counter. -/
theorem requestAfterAuth_frame (st : St) :
    (requestAfterAuth st).1.sessionToken = st.sessionToken ∧
    (requestAfterAuth st).1.loginCalls = st.loginCalls ∧
    (requestAfterAuth st).1.logins = st.logins := by
  unfold requestAfterAuth getAuthHeaders axiosDispatch
  cases hs : st.sessionToken with
  | none => simp [hs]
  | some t =>
    cases hd : st.dispatches.headD DispatchOutcome.transport with
    | transport => simp [hs, hd]
    | reply s b =>
      simp only [hs, hd]
      by_cases h1 : 200 ≤ s ∧ s < 500
      · by_cases h4 : 400 ≤ s <;> simp [h1, h4]
      · simp [h1]

/-- With no stored token, requestAfterAuth throws the plain
no-session-token error without dispatching anything. -/
theorem requestAfterAuth_none (st : St) (h : st.sessionToken = none) :
    requestAfterAuth st =
      (st, .error ⟨"No session token available. Please authenticate first.", none⟩) := by
  unfold requestAfterAuth getAuthHeaders
  simp [h]

/-- With a stored token, requestAfterAuth issues exactly one dispatch
carrying the bearer header for that token, and any error it throws
never carries response status 401: a 401 reply is accepted by
validateStatus and then rethrown as a plain Error with no response
attached (index.js line 70), while axios rejections carry a status
outside 200-499. -/
theorem requestAfterAuth_some (st : St) (t : String)
    (h : st.sessionToken = some t) :
    (requestAfterAuth st).1.dispatchCalls = st.dispatchCalls + 1 ∧
    (requestAfterAuth st).1.sentAuth = st.sentAuth ++ ["Bearer " ++ t] ∧
    ∀ err, (requestAfterAuth st).2 = .error err → err.respStatus ≠ some 401 := by
  unfold requestAfterAuth getAuthHeaders axiosDispatch
  cases hd : st.dispatches.headD DispatchOutcome.transport with
  | transport => simp [h, hd]
  | reply s b =>
    simp only [h, hd]
    by_cases hs : 200 ≤ s ∧ s < 500
    · by_cases h4 : 400 ≤ s <;> simp [hs, h4]
    · simp [hs]
      omega

/-- requestTryBody with a stored token skips the pre-authentication of
index.js line 42 entirely. -/
theorem requestTryBody_some (e : String) (st : St) (t : String)
    (h : st.sessionToken = some t) : requestTryBody e st = requestAfterAuth st := by
  unfold requestTryBody
  simp [h]

/-- requestTryBody runs the request body directly, or first runs
authenticate and either propagates its error or continues with the
request body. -/
theorem requestTryBody_cases (e : String) (st : St) :
    requestTryBody e st = requestAfterAuth st ∨
    (∃ st1 err, authenticate st = (st1, Except.error err) ∧
        requestTryBody e st = (st1, Except.error err)) ∨
    (∃ st1, authenticate st = (st1, Except.ok ()) ∧
        requestTryBody e st = requestAfterAuth st1) := by
  unfold requestTryBody
  split
  · rcases ha : authenticate st with ⟨st1, r⟩
    cases r with
    | error err => right; left; exact ⟨st1, err, rfl, rfl⟩
    | ok u => cases u; right; right; exact ⟨st1, rfl, rfl⟩
  · left; rfl

/-- loginCalls never decreases across requestTryBody. -/
theorem requestTryBody_loginCalls_ge (e : String) (st : St) :
    st.loginCalls ≤ (requestTryBody e st).1.loginCalls := by
  rcases requestTryBody_cases e st with hc | ⟨st1, err, ha, hc⟩ | ⟨st1, ha, hc⟩
  · rw [hc, (requestAfterAuth_frame st).2.1]
  · have h1 := authenticate_loginCalls st
    rw [ha] at h1; simp at h1
    rw [hc]; simp; omega
  · have h1 := authenticate_loginCalls st
    rw [ha] at h1; simp at h1
    rw [hc, (requestAfterAuth_frame st1).2.1]; omega

/-- When requestTryBody issued no login POST, the stored token is
unchanged. -/
theorem requestTryBody_token_of_loginCalls (e : String) (st : St)
    (h : (requestTryBody e st).1.loginCalls = st.loginCalls) :
    (requestTryBody e st).1.sessionToken = st.sessionToken := by
  rcases requestTryBody_cases e st with hc | ⟨st1, err, ha, hc⟩ | ⟨st1, ha, hc⟩
  · rw [hc]; exact (requestAfterAuth_frame st).1
  · have h1 := authenticate_loginCalls st
    rw [ha] at h1; simp at h1
    rw [hc] at h; simp at h
    omega
  · have h1 := authenticate_loginCalls st
    rw [ha] at h1; simp at h1
    rw [hc, (requestAfterAuth_frame st1).2.1] at h
    omega

/-- loginCalls never decreases across makeCaproverRequest. -/
theorem makeCaproverRequest_loginCalls_ge (f : Nat) (e m : String)
    (d : Option String) (st : St) :
    st.loginCalls ≤ (makeCaproverRequest f e m d st).1.loginCalls := by
  induction f generalizing st with
  | zero => simp [makeCaproverRequest]
  | succ f ih =>
    rw [makeCaproverRequest]
    rcases hb : requestTryBody e st with ⟨st1, r⟩
    have hge : st.loginCalls ≤ st1.loginCalls := by
      have h := requestTryBody_loginCalls_ge e st
      rw [hb] at h; exact h
    cases r with
    | ok body => simpa using hge
    | error err =>
      by_cases h401 : err.respStatus = some 401
      · simp only [h401, reduceIte]
        rcases ha : authenticate st1 with ⟨st2, r2⟩
        have h2 : st2.loginCalls = st1.loginCalls + 1 := by
          have h := authenticate_loginCalls st1
          rw [ha] at h; simpa using h
        cases r2 with
        | error e2 => simp; omega
        | ok u =>
          cases u
          have h3 := ih st2
          simp
          omega
      · simp only [h401, reduceIte]
        simpa using hge

/-- One unit of fuel suffices once a token is stored: with
sessionToken set, no error of the try block carries response status
401, so the recursive retry of index.js line 80 is never taken. -/
theorem makeCaproverRequest_fuel_one (f : Nat) (e m : String)
    (d : Option String) (st : St) (t : String) (h : st.sessionToken = some t) :
    makeCaproverRequest (f + 1) e m d st = makeCaproverRequest 1 e m d st := by
  have h1 : (1 : Nat) = 0 + 1 := rfl
  rw [h1, makeCaproverRequest, makeCaproverRequest]
  rw [requestTryBody_some e st t h]
  rcases hb : requestAfterAuth st with ⟨st1, r⟩
  cases r with
  | ok body => rfl
  | error err =>
    have hne := (requestAfterAuth_some st t h).2.2 err (by rw [hb])
    simp [hne]

/-- Two units of fuel suffice for every input: the recursive retry of
index.js line 80 only runs after a successful authenticate, which
stores a token, and with a token stored no retry is ever taken again. -/
theorem makeCaproverRequest_fuel_two (f : Nat) (e m : String)
    (d : Option String) (st : St) :
    makeCaproverRequest (f + 2) e m d st = makeCaproverRequest 2 e m d st := by
  show makeCaproverRequest ((f + 1) + 1) e m d st = makeCaproverRequest (1 + 1) e m d st
  rw [makeCaproverRequest, makeCaproverRequest]
  rcases hb : requestTryBody e st with ⟨st1, r⟩
  cases r with
  | ok body => rfl
  | error err =>
    by_cases h401 : err.respStatus = some 401
    · simp only [h401, reduceIte]
      rcases ha : authenticate st1 with ⟨st2, r2⟩
      cases r2 with
      | error e2 => rfl
      | ok u =>
        cases u
        obtain ⟨t, _, ht⟩ := authenticate_ok_token st1 (by rw [ha])
        rw [ha] at ht
        simp at ht
        exact makeCaproverRequest_fuel_one f e m d st2 t ht
    · simp only [h401, reduceIte]

/-- makeCaproverRequest only looks at its state through requestTryBody:
two states with the same try-block outcome give the same run. -/
theorem makeCaproverRequest_congr (f : Nat) (e m : String) (d : Option String)
    (st st' : St) (h : requestTryBody e st = requestTryBody e st') :
    makeCaproverRequest (f + 1) e m d st = makeCaproverRequest (f + 1) e m d st' := by
  conv_lhs => rw [makeCaproverRequest]
  conv_rhs => rw [makeCaproverRequest]
  rw [h]

/-- With a token stored, one invocation issues no login POST, issues
exactly one dispatch carrying the bearer header of the stored token,
and leaves the token unchanged. -/
theorem makeCaproverRequest_some_run (f : Nat) (e m : String)
    (d : Option String) (st : St) (t : String) (h : st.sessionToken = some t) :
    (makeCaproverRequest (f + 1) e m d st).1.loginCalls = st.loginCalls ∧
    (makeCaproverRequest (f + 1) e m d st).1.dispatchCalls = st.dispatchCalls + 1 ∧
    (makeCaproverRequest (f + 1) e m d st).1.sentAuth
      = st.sentAuth ++ ["Bearer " ++ t] ∧
    (makeCaproverRequest (f + 1) e m d st).1.sessionToken = some t := by
  rw [makeCaproverRequest, requestTryBody_some e st t h]
  rcases hb : requestAfterAuth st with ⟨st1, r⟩
  have hf := requestAfterAuth_frame st
  have hs := requestAfterAuth_some st t h
  rw [hb] at hf hs
  simp at hf hs
  cases r with
  | ok body =>
    exact ⟨hf.2.1, hs.1, hs.2.1, by rw [hf.1, h]⟩
  | error err =>
    have hne : err.respStatus ≠ some 401 := hs.2.2 err rfl
    simp only [hne, reduceIte]
    exact ⟨hf.2.1, hs.1, hs.2.1, by rw [hf.1, h]⟩

/-! Claim theorems. -/

/-- C4: authenticate, given a well-formed success response from the
login endpoint, extracts the token at the known path (data.data.token)
and stores it as the current credential; when the expected token field
is absent from the response it fails with the malformed-response error
and stores nothing. -/
theorem authenticate_extracts_or_rejects (st : St) :
    (∀ t rest, st.logins = LoginResult.ok t :: rest →
      (authenticate st).1.sessionToken = some t ∧
      (authenticate st).2 = Except.ok ()) ∧
    (∀ rest, st.logins = LoginResult.noToken :: rest →
      (authenticate st).1.sessionToken = st.sessionToken ∧
      (authenticate st).2 =
        Except.error ⟨"No valid token received from authentication", none⟩) := by
  constructor
  · intro t rest h
    simp [authenticate, h]
  · intro rest h
    simp [authenticate, h]

/-- Witness for authenticate_extracts_or_rejects: a concrete login
response with token field present stores the token, and one without it
keeps the credential unset. -/
theorem authenticate_extracts_or_rejects_witness :
    (authenticate ⟨none, [LoginResult.ok "tok123"], [], 0, 0, []⟩).1.sessionToken
        = some "tok123" ∧
    (authenticate ⟨none, [LoginResult.noToken], [], 0, 0, []⟩).1.sessionToken
        = none :=
  ⟨((authenticate_extracts_or_rejects
      ⟨none, [LoginResult.ok "tok123"], [], 0, 0, []⟩).1 "tok123" [] rfl).1,
   ((authenticate_extracts_or_rejects
      ⟨none, [LoginResult.noToken], [], 0, 0, []⟩).2 [] rfl).1⟩

/-- C10: invoking makeCaproverRequest on the login endpoint itself with
no stored credential throws the plain no-session-token error before any
outbound call is dispatched: the endpoint is exempt from the automatic
pre-authentication of index.js line 42, but getAuthHeaders demands a
token unconditionally, so the state — login count, dispatch count and
all — is left completely untouched. -/
theorem login_endpoint_without_token_errors (f : Nat) (m : String)
    (d : Option String) (st : St) (h : st.sessionToken = none) :
    (makeCaproverRequest (f + 1) loginEndpoint m d st).2 =
      Except.error
        ⟨"No session token available. Please authenticate first.", none⟩ ∧
    (makeCaproverRequest (f + 1) loginEndpoint m d st).1 = st := by
  rw [makeCaproverRequest]
  have hb : requestTryBody loginEndpoint st =
      (st, .error ⟨"No session token available. Please authenticate first.", none⟩) := by
    unfold requestTryBody
    rw [if_neg (by simp)]
    exact requestAfterAuth_none st h
  rw [hb]
  simp

/-- Witness for login_endpoint_without_token_errors at a concrete
state: despite a login outcome and a dispatch outcome being available,
nothing is consumed. -/
theorem login_endpoint_without_token_errors_witness :
    (makeCaproverRequest 1 loginEndpoint "post" none
        ⟨none, [LoginResult.ok "xyz"], [DispatchOutcome.reply 200 "g"], 0, 0, []⟩).1 =
      ⟨none, [LoginResult.ok "xyz"], [DispatchOutcome.reply 200 "g"], 0, 0, []⟩ :=
  (login_endpoint_without_token_errors 0 "post" none
    ⟨none, [LoginResult.ok "xyz"], [DispatchOutcome.reply 200 "g"], 0, 0, []⟩ rfl).2

/-- C3 counterexample: with no stored credential, when the login
endpoint rejects the initial pre-authentication login with 401 and a
second login succeeds, two logins — not exactly one — precede the
dispatched call: the axios rejection from line 44 carries response
status 401, so the catch at index.js line 75 matches it and line 78
logs in again before the retry dispatches. -/
theorem initial_login_401_double_login :
    (makeCaproverRequest 2 "/api/v2/user/apps" "get" none
        ⟨none, [LoginResult.httpErr 401, LoginResult.ok "xyz"],
          [DispatchOutcome.reply 200 "b"], 0, 0, []⟩).1.loginCalls = 2 ∧
    (makeCaproverRequest 2 "/api/v2/user/apps" "get" none
        ⟨none, [LoginResult.httpErr 401, LoginResult.ok "xyz"],
          [DispatchOutcome.reply 200 "b"], 0, 0, []⟩).1.dispatchCalls = 1 ∧
    (makeCaproverRequest 2 "/api/v2/user/apps" "get" none
        ⟨none, [LoginResult.httpErr 401, LoginResult.ok "xyz"],
          [DispatchOutcome.reply 200 "b"], 0, 0, []⟩).1.sentAuth
      = ["Bearer xyz"] ∧
    (makeCaproverRequest 2 "/api/v2/user/apps" "get" none
        ⟨none, [LoginResult.httpErr 401, LoginResult.ok "xyz"],
          [DispatchOutcome.reply 200 "b"], 0, 0, []⟩).2 = Except.ok "b" :=
  ⟨rfl, rfl, rfl, rfl⟩

/-- C3 amended: a call to a non-login endpoint made while no credential
is stored performs at least one login before the call is attempted, and
the single dispatched call carries the most recently stored token as a
bearer-style Authorization header — exactly one login when the
pre-authentication login succeeds, but two logins when the login
endpoint rejects the initial login with 401 and the line-78 re-login
succeeds, the dispatch then carrying the second login token. -/
theorem lazy_login_before_call (f : Nat) (e m t : String) (d : Option String)
    (lrest : List LoginResult) (ds : List DispatchOutcome)
    (he : e ≠ loginEndpoint) :
    ((makeCaproverRequest (f + 1) e m d
        ⟨none, .ok t :: lrest, ds, 0, 0, []⟩).1.loginCalls = 1 ∧
     (makeCaproverRequest (f + 1) e m d
        ⟨none, .ok t :: lrest, ds, 0, 0, []⟩).1.dispatchCalls = 1 ∧
     (makeCaproverRequest (f + 1) e m d
        ⟨none, .ok t :: lrest, ds, 0, 0, []⟩).1.sentAuth = ["Bearer " ++ t]) ∧
    ((makeCaproverRequest (f + 2) e m d
        ⟨none, .httpErr 401 :: .ok t :: lrest, ds, 0, 0, []⟩).1.loginCalls = 2 ∧
     (makeCaproverRequest (f + 2) e m d
        ⟨none, .httpErr 401 :: .ok t :: lrest, ds, 0, 0, []⟩).1.dispatchCalls = 1 ∧
     (makeCaproverRequest (f + 2) e m d
        ⟨none, .httpErr 401 :: .ok t :: lrest, ds, 0, 0, []⟩).1.sentAuth
       = ["Bearer " ++ t]) := by
  constructor
  · have ha : authenticate (⟨none, .ok t :: lrest, ds, 0, 0, []⟩ : St) =
        (⟨some t, lrest, ds, 1, 0, []⟩, Except.ok ()) := by
      simp [authenticate]
    have hb : requestTryBody e (⟨none, .ok t :: lrest, ds, 0, 0, []⟩ : St) =
        requestTryBody e (⟨some t, lrest, ds, 1, 0, []⟩ : St) := by
      unfold requestTryBody
      rw [if_pos ⟨rfl, he⟩, ha, if_neg (by simp)]
    rw [makeCaproverRequest_congr f e m d _ _ hb]
    have hrun := makeCaproverRequest_some_run f e m d
      (⟨some t, lrest, ds, 1, 0, []⟩ : St) t rfl
    simp at hrun
    exact ⟨hrun.1, hrun.2.1, hrun.2.2.1⟩
  · have ha1 : authenticate
        (⟨none, .httpErr 401 :: .ok t :: lrest, ds, 0, 0, []⟩ : St) =
        (⟨none, .ok t :: lrest, ds, 1, 0, []⟩,
          Except.error
            ⟨"Request failed with status code " ++ toString 401, some 401⟩) := by
      simp [authenticate]
    have ha2 : authenticate (⟨none, .ok t :: lrest, ds, 1, 0, []⟩ : St) =
        (⟨some t, lrest, ds, 2, 0, []⟩, Except.ok ()) := by
      simp [authenticate]
    have hb : requestTryBody e
        (⟨none, .httpErr 401 :: .ok t :: lrest, ds, 0, 0, []⟩ : St) =
        (⟨none, .ok t :: lrest, ds, 1, 0, []⟩,
          Except.error
            ⟨"Request failed with status code " ++ toString 401, some 401⟩) := by
      unfold requestTryBody
      rw [if_pos ⟨rfl, he⟩, ha1]
    show (makeCaproverRequest ((f + 1) + 1) e m d
        ⟨none, .httpErr 401 :: .ok t :: lrest, ds, 0, 0, []⟩).1.loginCalls = 2 ∧ _
    rw [makeCaproverRequest, hb]
    simp only [reduceIte, ha2]
    have hrun := makeCaproverRequest_some_run f e m d
      (⟨some t, lrest, ds, 2, 0, []⟩ : St) t rfl
    simp at hrun
    exact ⟨hrun.1, hrun.2.1, hrun.2.2.1⟩

/-- Witness for lazy_login_before_call: a concrete GET with no stored
token whose pre-authentication login succeeds logs in once and
dispatches once with the fresh bearer header. -/
theorem lazy_login_before_call_witness :
    (makeCaproverRequest 1 "/api/v2/user/apps" "get" none
        ⟨none, [.ok "abc"], [.reply 200 "body"], 0, 0, []⟩).1.sentAuth
      = ["Bearer " ++ "abc"] :=
  (lazy_login_before_call 0 "/api/v2/user/apps" "get" "abc" none
    [] [.reply 200 "body"] (by decide)).1.2.2

/-- C6: a network-level failure of the dispatched call (no response
available) is surfaced to the caller at once as the axios network error
and never triggers a credential refresh: with a credential already in
place, zero further login calls are made and the token is untouched. -/
theorem transport_error_no_refresh (f : Nat) (e m : String) (d : Option String)
    (st : St) (t : String) (rest : List DispatchOutcome)
    (h : st.sessionToken = some t) (hd : st.dispatches = .transport :: rest) :
    (makeCaproverRequest (f + 1) e m d st).2 =
      Except.error ⟨"Network Error", none⟩ ∧
    (makeCaproverRequest (f + 1) e m d st).1.loginCalls = st.loginCalls ∧
    (makeCaproverRequest (f + 1) e m d st).1.sessionToken = some t := by
  rw [makeCaproverRequest, requestTryBody_some e st t h]
  have hra : requestAfterAuth st =
      ({ st with
          dispatches := rest
          dispatchCalls := st.dispatchCalls + 1
          sentAuth := st.sentAuth ++ ["Bearer " ++ t] },
        Except.error ⟨"Network Error", none⟩) := by
    unfold requestAfterAuth getAuthHeaders axiosDispatch
    simp [h, hd]
  rw [hra]
  simp [h]

/-- Witness for transport_error_no_refresh: an unreachable host after a
completed initial login leaves the login count at its initial value. -/
theorem transport_error_no_refresh_witness :
    (makeCaproverRequest 1 "/api/v2/user/apps" "get" none
        ⟨some "abc", [], [DispatchOutcome.transport], 1, 0, []⟩).1.loginCalls = 1 :=
  (transport_error_no_refresh 0 "/api/v2/user/apps" "get" none
    ⟨some "abc", [], [DispatchOutcome.transport], 1, 0, []⟩ "abc" [] rfl rfl).2.1

/-- C7: a 404 reply or a 500 reply to a call made with a stored
credential passes through to the caller carrying its status and body —
the 404 as the plain line-70 error, the 500 as the axios rejection —
and is never reinterpreted as an auth problem: no login POST is made
and the stored token after the invocation equals the one before. -/
theorem client_server_error_passthrough (f : Nat) (e m : String)
    (d : Option String) (st : St) (t b : String) (rest : List DispatchOutcome)
    (h : st.sessionToken = some t) :
    (st.dispatches = .reply 404 b :: rest →
      (makeCaproverRequest (f + 1) e m d st).2 =
        Except.error ⟨"Request failed with status 404: " ++ b, none⟩ ∧
      (makeCaproverRequest (f + 1) e m d st).1.sessionToken = some t ∧
      (makeCaproverRequest (f + 1) e m d st).1.loginCalls = st.loginCalls) ∧
    (st.dispatches = .reply 500 b :: rest →
      (makeCaproverRequest (f + 1) e m d st).2 =
        Except.error ⟨"Request failed with status code 500", some 500⟩ ∧
      (makeCaproverRequest (f + 1) e m d st).1.sessionToken = some t ∧
      (makeCaproverRequest (f + 1) e m d st).1.loginCalls = st.loginCalls) := by
  constructor
  · intro hd
    rw [makeCaproverRequest, requestTryBody_some e st t h]
    have hra : requestAfterAuth st =
        ({ st with
            dispatches := rest
            dispatchCalls := st.dispatchCalls + 1
            sentAuth := st.sentAuth ++ ["Bearer " ++ t] },
          Except.error ⟨"Request failed with status 404: " ++ b, none⟩) := by
      unfold requestAfterAuth getAuthHeaders axiosDispatch
      simp [h, hd]
      rfl
    rw [hra]
    simp [h]
  · intro hd
    rw [makeCaproverRequest, requestTryBody_some e st t h]
    have hra : requestAfterAuth st =
        ({ st with
            dispatches := rest
            dispatchCalls := st.dispatchCalls + 1
            sentAuth := st.sentAuth ++ ["Bearer " ++ t] },
          Except.error ⟨"Request failed with status code 500", some 500⟩) := by
      unfold requestAfterAuth getAuthHeaders axiosDispatch
      simp [h, hd]
      rfl
    rw [hra]
    simp [h]

/-- Witness for client_server_error_passthrough: concrete 404 and 500
replies leave the stored token in place. -/
theorem client_server_error_passthrough_witness :
    (makeCaproverRequest 1 "/api/v2/user/apps" "get" none
        ⟨some "abc", [], [DispatchOutcome.reply 404 "nf"], 1, 0, []⟩).1.sessionToken
      = some "abc" ∧
    (makeCaproverRequest 1 "/api/v2/user/apps" "get" none
        ⟨some "abc", [], [DispatchOutcome.reply 500 "boom"], 1, 0, []⟩).1.sessionToken
      = some "abc" :=
  ⟨((client_server_error_passthrough 0 "/api/v2/user/apps" "get" none
      ⟨some "abc", [], [DispatchOutcome.reply 404 "nf"], 1, 0, []⟩
      "abc" "nf" [] rfl).1 rfl).2.1,
   ((client_server_error_passthrough 0 "/api/v2/user/apps" "get" none
      ⟨some "abc", [], [DispatchOutcome.reply 500 "boom"], 1, 0, []⟩
      "abc" "boom" [] rfl).2 rfl).2.1⟩

/-- C8: the session credential is a single process-wide cell written
only by authenticate: a dispatched axios call never changes it;
authenticate either leaves it alone (on any failure) or replaces it
wholesale with the token of a successful login; and any
makeCaproverRequest run that issued no login POST finishes with the
credential it started with. -/
theorem sessionToken_single_writer :
    (∀ h st, (axiosDispatch h st).1.sessionToken = st.sessionToken) ∧
    (∀ st, (authenticate st).1.sessionToken = st.sessionToken ∨
      ∃ t, st.logins.headD .transport = .ok t ∧
        (authenticate st).1.sessionToken = some t) ∧
    (∀ f e m d st,
      (makeCaproverRequest f e m d st).1.loginCalls = st.loginCalls →
      (makeCaproverRequest f e m d st).1.sessionToken = st.sessionToken) := by
  refine ⟨?_, authenticate_token_cases, ?_⟩
  · intro h st
    unfold axiosDispatch
    cases hd : st.dispatches.headD DispatchOutcome.transport with
    | transport => simp [hd]
    | reply s b =>
      simp only [hd]
      by_cases h1 : 200 ≤ s ∧ s < 500 <;> simp [h1]
  · intro f e m d st
    induction f generalizing st with
    | zero => intro _; rfl
    | succ f ih =>
      intro hl
      rw [makeCaproverRequest] at hl ⊢
      rcases hb : requestTryBody e st with ⟨st1, r⟩
      rw [hb] at hl
      have hge : st.loginCalls ≤ st1.loginCalls := by
        have hgg := requestTryBody_loginCalls_ge e st
        rw [hb] at hgg
        exact hgg
      cases r with
      | ok body =>
        simp only at hl ⊢
        have hth := requestTryBody_token_of_loginCalls e st
          (by rw [hb]; simpa using hl)
        rw [hb] at hth
        simpa using hth
      | error err =>
        by_cases h401 : err.respStatus = some 401
        · simp only [h401, reduceIte] at hl ⊢
          rcases ha : authenticate st1 with ⟨st2, r2⟩
          rw [ha] at hl
          have h2 : st2.loginCalls = st1.loginCalls + 1 := by
            have hh := authenticate_loginCalls st1
            rw [ha] at hh
            simpa using hh
          cases r2 with
          | error e2 =>
            exfalso
            have hl2 : st2.loginCalls = st.loginCalls := hl
            omega
          | ok u =>
            cases u
            exfalso
            have h3 := makeCaproverRequest_loginCalls_ge f e m d st2
            have hl2 : (makeCaproverRequest f e m d st2).1.loginCalls
                = st.loginCalls := hl
            omega
        · simp only [h401, reduceIte] at hl ⊢
          have hth := requestTryBody_token_of_loginCalls e st
            (by rw [hb]; simpa using hl)
          rw [hb] at hth
          simpa using hth

/-- Witness for sessionToken_single_writer: a plain authenticated GET
that logs nothing in keeps its stored token. -/
theorem sessionToken_single_writer_witness :
    (makeCaproverRequest 1 "/api/v2/user/apps" "get" none
        ⟨some "abc", [], [DispatchOutcome.reply 200 "ok"], 0, 0, []⟩).1.sessionToken
      = some "abc" :=
  sessionToken_single_writer.2.2 1 "/api/v2/user/apps" "get" none
    ⟨some "abc", [], [DispatchOutcome.reply 200 "ok"], 0, 0, []⟩ (by decide)

/-- C1: evaluation of the code at the claim's scenario.  With token
"abc" stored, the upstream replying 401 to the first dispatch, and a
fresh login ("xyz") plus a 200 reply both available for a retry, the
invocation performs zero logins and only one dispatch and throws the
generic line-70 error: validateStatus accepts the 401, so line 70
rethrows it as a plain Error carrying no response status, and the 401
handler of index.js line 75 never fires.  The claimed
discard-relogin-retry-succeed behaviour does not occur, contradicting
the retry intent documented in the comments at lines 76-79. -/
theorem resp401_not_retried :
    (makeCaproverRequest 5 "/api/v2/user/apps" "get" none
        ⟨some "abc", [LoginResult.ok "xyz"],
          [DispatchOutcome.reply 401 "unauthorized", DispatchOutcome.reply 200 "fresh"],
          0, 0, []⟩).2 =
      Except.error ⟨"Request failed with status 401: unauthorized", none⟩ ∧
    (makeCaproverRequest 5 "/api/v2/user/apps" "get" none
        ⟨some "abc", [LoginResult.ok "xyz"],
          [DispatchOutcome.reply 401 "unauthorized", DispatchOutcome.reply 200 "fresh"],
          0, 0, []⟩).1.loginCalls = 0 ∧
    (makeCaproverRequest 5 "/api/v2/user/apps" "get" none
        ⟨some "abc", [LoginResult.ok "xyz"],
          [DispatchOutcome.reply 401 "unauthorized", DispatchOutcome.reply 200 "fresh"],
          0, 0, []⟩).1.dispatchCalls = 1 ∧
    (makeCaproverRequest 5 "/api/v2/user/apps" "get" none
        ⟨some "abc", [LoginResult.ok "xyz"],
          [DispatchOutcome.reply 401 "unauthorized", DispatchOutcome.reply 200 "fresh"],
          0, 0, []⟩).1.sessionToken = some "abc" :=
  ⟨rfl, rfl, rfl, rfl⟩

/-- C2 counterexample: with token "abc" stored and the upstream
replying 401 to every dispatch attempt (two 401 replies queued and a
refresh login available), the invocation returns after exactly 1
dispatch attempt with 0 refresh logins — not the claimed 2 dispatch
attempts and 1 refresh login. -/
theorem persistent401_counterexample :
    (makeCaproverRequest 5 "/api/v2/system/info" "get" none
        ⟨some "abc", [LoginResult.ok "xyz"],
          [DispatchOutcome.reply 401 "denied1", DispatchOutcome.reply 401 "denied2"],
          0, 0, []⟩).1.dispatchCalls = 1 ∧
    (makeCaproverRequest 5 "/api/v2/system/info" "get" none
        ⟨some "abc", [LoginResult.ok "xyz"],
          [DispatchOutcome.reply 401 "denied1", DispatchOutcome.reply 401 "denied2"],
          0, 0, []⟩).1.loginCalls = 0 ∧
    (makeCaproverRequest 5 "/api/v2/system/info" "get" none
        ⟨some "abc", [LoginResult.ok "xyz"],
          [DispatchOutcome.reply 401 "denied1", DispatchOutcome.reply 401 "denied2"],
          0, 0, []⟩).2 =
      Except.error ⟨"Request failed with status 401: denied1", none⟩ :=
  ⟨rfl, rfl, rfl⟩

/-- C2 amended: the retry logic never recurses unboundedly — two units
of recursion fuel give the same outcome as any larger amount, for every
input — but not for the claimed reason: a call whose dispatch receives
a 401 reply returns the generic line-70 error after exactly one
dispatch attempt and zero refresh logins, because the 401 handler is
unreachable for response-level 401s. -/
theorem bounded_retry :
    (∀ f e m d st,
      makeCaproverRequest (f + 2) e m d st = makeCaproverRequest 2 e m d st) ∧
    (∀ f e m d st t b rest, st.sessionToken = some t →
      st.dispatches = DispatchOutcome.reply 401 b :: rest →
      (makeCaproverRequest (f + 1) e m d st).2 =
        Except.error ⟨"Request failed with status 401: " ++ b, none⟩ ∧
      (makeCaproverRequest (f + 1) e m d st).1.dispatchCalls
        = st.dispatchCalls + 1 ∧
      (makeCaproverRequest (f + 1) e m d st).1.loginCalls = st.loginCalls) := by
  refine ⟨makeCaproverRequest_fuel_two, ?_⟩
  intro f e m d st t b rest ht hd
  rw [makeCaproverRequest, requestTryBody_some e st t ht]
  have hra : requestAfterAuth st =
      ({ st with
          dispatches := rest
          dispatchCalls := st.dispatchCalls + 1
          sentAuth := st.sentAuth ++ ["Bearer " ++ t] },
        Except.error ⟨"Request failed with status 401: " ++ b, none⟩) := by
    unfold requestAfterAuth getAuthHeaders axiosDispatch
    simp [ht, hd]
    rfl
  rw [hra]
  simp

/-- Witness for bounded_retry: a concrete 401 reply adds one dispatch
and no login. -/
theorem bounded_retry_witness :
    (makeCaproverRequest 1 "/api/v2/user/apps" "get" none
        ⟨some "tkn", [], [DispatchOutcome.reply 401 "denied"], 2, 0, []⟩).1.loginCalls
      = 2 :=
  (bounded_retry.2 0 "/api/v2/user/apps" "get" none
    ⟨some "tkn", [], [DispatchOutcome.reply 401 "denied"], 2, 0, []⟩
    "tkn" "denied" [] rfl rfl).2.2

/-- C5 counterexample: a 300 reply is returned as a Success carrying
the body, not as a ClientError; and a 401 reply is not classified as an
AuthFailure — it produces the same generic status-carrying error as any
other 4xx and triggers no login. -/
theorem classification_counterexample :
    ((makeCaproverRequest 2 "/api/v2/user/apps" "get" none
        ⟨some "abc", [], [DispatchOutcome.reply 300 "redirected"], 0, 0, []⟩).2 =
      Except.ok "redirected") ∧
    ((makeCaproverRequest 2 "/api/v2/version" "get" none
        ⟨some "abc", [LoginResult.ok "xyz"],
          [DispatchOutcome.reply 401 "denied", DispatchOutcome.reply 200 "fine"],
          0, 0, []⟩).2 =
      Except.error ⟨"Request failed with status 401: denied", none⟩ ∧
     (makeCaproverRequest 2 "/api/v2/version" "get" none
        ⟨some "abc", [LoginResult.ok "xyz"],
          [DispatchOutcome.reply 401 "denied", DispatchOutcome.reply 200 "fine"],
          0, 0, []⟩).1.loginCalls = 0) :=
  ⟨rfl, rfl, rfl⟩

/-- C5 amended: for a resolved reply on an authenticated call, any
status below 400 — the 3xx range included — returns the body as a
Success; any status in 400-499, 401 included and not special-cased, is
thrown as the generic line-70 error carrying the status and body in its
message, with no login performed; no reply in the 200-499 range is ever
treated as a transport failure. -/
theorem response_classification (f : Nat) (e m t b : String)
    (d : Option String) (s : Nat) (st : St) (rest : List DispatchOutcome)
    (ht : st.sessionToken = some t)
    (hd : st.dispatches = DispatchOutcome.reply s b :: rest)
    (h2 : 200 ≤ s) (h5 : s < 500) :
    (s < 400 → (makeCaproverRequest (f + 1) e m d st).2 = Except.ok b) ∧
    (400 ≤ s →
      (makeCaproverRequest (f + 1) e m d st).2 =
        Except.error
          ⟨"Request failed with status " ++ toString s ++ ": " ++ b, none⟩ ∧
      (makeCaproverRequest (f + 1) e m d st).1.loginCalls = st.loginCalls) := by
  constructor
  · intro h4
    have h4n : ¬ 400 ≤ s := by omega
    rw [makeCaproverRequest, requestTryBody_some e st t ht]
    have hra : requestAfterAuth st =
        ({ st with
            dispatches := rest
            dispatchCalls := st.dispatchCalls + 1
            sentAuth := st.sentAuth ++ ["Bearer " ++ t] },
          Except.ok b) := by
      unfold requestAfterAuth getAuthHeaders axiosDispatch
      simp [ht, hd, h2, h5, h4n]
    rw [hra]
  · intro h4
    rw [makeCaproverRequest, requestTryBody_some e st t ht]
    have hra : requestAfterAuth st =
        ({ st with
            dispatches := rest
            dispatchCalls := st.dispatchCalls + 1
            sentAuth := st.sentAuth ++ ["Bearer " ++ t] },
          Except.error
            ⟨"Request failed with status " ++ toString s ++ ": " ++ b, none⟩) := by
      unfold requestAfterAuth getAuthHeaders axiosDispatch
      simp [ht, hd, h2, h5, h4]
    rw [hra]
    simp

/-- Witness for response_classification: a 204 reply returns its body
as a Success. -/
theorem response_classification_witness :
    (makeCaproverRequest 1 "/api/v2/user/apps" "get" none
        ⟨some "abc", [], [DispatchOutcome.reply 204 "done"], 0, 0, []⟩).2 =
      Except.ok "done" :=
  (response_classification 0 "/api/v2/user/apps" "get" "abc" "done" none 204
    ⟨some "abc", [], [DispatchOutcome.reply 204 "done"], 0, 0, []⟩ []
    rfl rfl (by decide) (by decide)).1 (by decide)

end Caprover
